import Mathlib

/-!
Verification of the paper-reading pipeline (`main.py`, `src/scraper.py`,
`src/analyzer.py`, `run_ocr_robust.py`).

A shallow embedding of the resilience and sequencing layer of the pipeline:
the filesystem-marker idempotency model, the OCR extraction supervisor, the
analysis driver, the download coordinator with its retry loop, and the
perpetual-restart wrapper.  Filesystems are modelled as association lists
from paths to string contents; file size is content length.
-/

namespace ReadPapers

/-- A filesystem: an association list from absolute path to file content.
The size of a file is the length of its content string. -/
abbrev FS := List (String × String)

/-- Look up the content stored at a path (`None` if the file is absent). -/
def fsLookup (fs : FS) (p : String) : Option String :=
  (fs.find? (fun e => e.1 == p)).map (fun e => e.2)

/-- Model of `os.path.exists` for a regular file. -/
def fsExists (fs : FS) (p : String) : Bool :=
  (fsLookup fs p).isSome

/-- Model of `os.path.getsize`: the byte size of a file (0 if absent). -/
def fsSize (fs : FS) (p : String) : Nat :=
  ((fsLookup fs p).getD "").length

/-- Model of `open(p, "w"); f.write(c)`: (over)write a file with content `c`. -/
def fsWrite (fs : FS) (p c : String) : FS :=
  (p, c) :: fs.filter (fun e => e.1 != p)

/-- Model of `os.remove`: delete the file at a path. -/
def fsRemove (fs : FS) (p : String) : FS :=
  fs.filter (fun e => e.1 != p)

/-- Whether `p` is a path strictly below directory `dir`: `dir ++ "/"` is
a prefix of `p` (character-wise on the path strings). -/
def underDir (dir p : String) : Bool :=
  List.isPrefixOf (dir ++ "/").data p.data

/-- Model of `os.path.exists` for a directory, in a model where only files
are stored: a directory exists exactly when some file lives strictly below
it. -/
def fsDirNonempty (fs : FS) (dir : String) : Bool :=
  fs.any (fun e => underDir dir e.1)

/-- Model of `shutil.rmtree`: delete every file strictly below `dir`. -/
def fsRemoveTree (fs : FS) (dir : String) : FS :=
  fs.filter (fun e => !(underDir dir e.1))

theorem find?_filter_eq_none {α : Type} (l : List α) (f g : α → Bool)
    (h : ∀ a, f a = true → g a = false) : (l.filter g).find? f = none := by
  cases hf : (l.filter g).find? f with
  | none => rfl
  | some a =>
    have hmem := List.mem_of_find?_eq_some hf
    have hpa := List.find?_some hf
    rw [List.mem_filter] at hmem
    rw [h a hpa] at hmem
    exact absurd hmem.2 (by simp)

theorem fsLookup_fsWrite_self (fs : FS) (p c : String) :
    fsLookup (fsWrite fs p c) p = some c := by
  unfold fsLookup fsWrite
  simp

theorem fsExists_fsWrite_self (fs : FS) (p c : String) :
    fsExists (fsWrite fs p c) p = true := by
  unfold fsExists
  rw [fsLookup_fsWrite_self]
  rfl

theorem fsExists_fsRemove_self (fs : FS) (p : String) :
    fsExists (fsRemove fs p) p = false := by
  unfold fsExists fsLookup fsRemove
  rw [find?_filter_eq_none]
  · rfl
  · intro a ha
    simp only [bne, ha]
    rfl

theorem fsExists_fsRemoveTree (fs : FS) (dir p : String)
    (hp : underDir dir p = true) :
    fsExists (fsRemoveTree fs dir) p = false := by
  unfold fsExists fsLookup fsRemoveTree
  rw [find?_filter_eq_none]
  · rfl
  · intro a ha
    have : a.1 = p := eq_of_beq ha
    rw [this, hp]
    rfl

theorem fsDirNonempty_false_no_file (fs : FS) (dir p : String)
    (hne : fsDirNonempty fs dir = false)
    (hp : underDir dir p = true) :
    fsExists fs p = false := by
  unfold fsDirNonempty at hne
  unfold fsExists fsLookup
  cases hf : fs.find? (fun e => e.1 == p) with
  | none => rfl
  | some a =>
    have hmem := List.mem_of_find?_eq_some hf
    have hbeq0 := List.find?_some hf
    have hbeq : (a.1 == p) = true := hbeq0
    have hpa : a.1 = p := eq_of_beq hbeq
    rw [List.any_eq_false] at hne
    have := hne a hmem
    rw [hpa, hp] at this
    exact absurd rfl this

/-! ## Analysis driver (`main.py` lines 131-147)

The analyzer call is modelled by its outcome: `.error e` is a Python
exception with message `e`, `.ok r` is a returned report string (`.ok ""`
is a falsy report).  `analysisStep` is the analysis block of the loop body
for one item; it returns the new filesystem, whether the analyzer was
invoked, and an uncaught exception if one was raised. -/

/-- One item's analysis block (`main.py` 131-147): if `full_extracted.md`
exists and `analysis_report.md` does not, call the analyzer; a truthy
report is written to `analysis_report.md`; an analyzer exception is not
caught.  Returns (new filesystem, analyzer invoked?, uncaught exception). -/
def analysisStep (res : Except String String) (fs : FS) (dir : String) :
    FS × Bool × Option String :=
  if fsExists fs (dir ++ "/full_extracted.md") then
    if fsExists fs (dir ++ "/analysis_report.md") then (fs, false, none)
    else
      match res with
      | .error e => (fs, true, some e)
      | .ok report =>
        if report ≠ "" then
          (fsWrite fs (dir ++ "/analysis_report.md") report, true, none)
        else (fs, true, none)
  else (fs, false, none)

/-- The per-item batch loop of `main.py` restricted to the analysis stage:
process the items in order; an uncaught analyzer exception propagates out
of the `for` loop, so processing stops there.  Returns the final
filesystem and the exception that aborted the loop, if any. -/
def analysisLoop (res : String → Except String String) (fs : FS) :
    List String → FS × Option String
  | [] => (fs, none)
  | d :: rest =>
    let step := analysisStep (res d) fs d
    match step.2.2 with
    | some e => (step.1, some e)
    | none => analysisLoop res step.1 rest

/-- The gate actually implemented by `main.py` 133-134: extraction marker
exists (any size) and analysis marker does not. -/
def analysisGate (fs : FS) (dir : String) : Bool :=
  fsExists fs (dir ++ "/full_extracted.md") &&
    !(fsExists fs (dir ++ "/analysis_report.md"))

theorem analysisStep_invoked (res : Except String String) (fs : FS) (dir : String) :
    (analysisStep res fs dir).2.1 = analysisGate fs dir := by
  unfold analysisStep analysisGate
  cases h1 : fsExists fs (dir ++ "/full_extracted.md") <;>
    cases h2 : fsExists fs (dir ++ "/analysis_report.md") <;>
      simp [h1, h2] <;> cases res <;> simp <;> split <;> simp

/-- A concrete filesystem with a zero-size extraction marker for item `p`. -/
def zeroSizeFS : FS := [("p/full_extracted.md", "")]

/-- CounterC1: an item whose `full_extracted.md` exists with size 0 and
whose `analysis_report.md` is absent IS analyzed: the gate only tests
existence, so the analyzer is invoked and its report written. -/
theorem zero_size_marker_is_analyzed :
    fsExists zeroSizeFS "p/full_extracted.md" = true ∧
    fsSize zeroSizeFS "p/full_extracted.md" = 0 ∧
    fsExists zeroSizeFS "p/analysis_report.md" = false ∧
    (analysisStep (.ok "R") zeroSizeFS "p").2.1 = true ∧
    fsExists (analysisStep (.ok "R") zeroSizeFS "p").1 "p/analysis_report.md" = true := by
  refine ⟨rfl, rfl, rfl, rfl, rfl⟩

/-- C1 (amended): the analysis driver runs the analyzer exactly when
`full_extracted.md` exists — regardless of its size — and
`analysis_report.md` does not exist; in particular a zero-size
`full_extracted.md` with no analysis marker is analyzed. -/
theorem analysis_gate_ignores_size (res : Except String String) (fs : FS) (dir : String)
    (h1 : fsExists fs (dir ++ "/full_extracted.md") = true)
    (h2 : fsExists fs (dir ++ "/analysis_report.md") = false)
    (h0 : fsSize fs (dir ++ "/full_extracted.md") = 0) :
    (analysisStep res fs dir).2.1 = true := by
  rw [analysisStep_invoked]
  unfold analysisGate
  rw [h1, h2]
  rfl

/-- Witness for `analysis_gate_ignores_size` at a concrete filesystem. -/
theorem analysis_gate_ignores_size_witness :
    (analysisStep (.ok "R") zeroSizeFS "p").2.1 = true :=
  analysis_gate_ignores_size (.ok "R") zeroSizeFS "p" rfl rfl rfl

/-! ## Analyzer failure handling (`main.py` 131-147) -/

theorem analysisStep_ok_empty (fs : FS) (dir : String) :
    analysisStep (.ok "") fs dir = (fs, analysisGate fs dir, none) := by
  unfold analysisStep analysisGate
  cases h1 : fsExists fs (dir ++ "/full_extracted.md") <;>
    cases h2 : fsExists fs (dir ++ "/analysis_report.md") <;> simp [h1, h2]

theorem analysisStep_error (fs : FS) (dir e : String)
    (h : analysisGate fs dir = true) :
    analysisStep (.error e) fs dir = (fs, true, some e) := by
  unfold analysisGate at h
  rw [Bool.and_eq_true, Bool.not_eq_true'] at h
  unfold analysisStep
  rw [h.1, h.2]
  rfl

/-- Two items, both with a completed extraction and no analysis marker. -/
def twoItemFS : FS := [("a/full_extracted.md", "X"), ("b/full_extracted.md", "Y")]

/-- An analyzer behaviour: raises on item `a`, succeeds on item `b`. -/
def twoItemRes : String → Except String String :=
  fun d => if d == "a" then .error "boom" else .ok "good"

/-- CounterC2: an Analyzer exception on item `a` propagates out of the
per-item loop: the loop is aborted, and item `b` — which would have been
analyzed successfully — is never processed and gets no marker. -/
theorem analyzer_exception_aborts_loop :
    analysisLoop twoItemRes twoItemFS ["a", "b"] = (twoItemFS, some "boom") ∧
    fsExists (analysisLoop twoItemRes twoItemFS ["a", "b"]).1 "a/analysis_report.md" = false ∧
    fsExists (analysisLoop twoItemRes twoItemFS ["a", "b"]).1 "b/analysis_report.md" = false ∧
    (analysisStep (twoItemRes "b") twoItemFS "b").2.1 = true :=
  ⟨rfl, rfl, rfl, rfl⟩

/-- C2 (amended): a falsy/empty report writes no marker and the loop
continues to the next item; but an Analyzer exception is not caught in the
loop body: it propagates, aborting the batch loop (with no marker written
for the failing item, which stays eligible for a future run). -/
theorem analyzer_failure_handling (res : String → Except String String)
    (fs : FS) (d : String) (rest : List String) (e : String) :
    (res d = .ok "" → analysisLoop res fs (d :: rest) = analysisLoop res fs rest) ∧
    (res d = .error e → analysisGate fs d = true →
      analysisLoop res fs (d :: rest) = (fs, some e) ∧
      fsExists fs (d ++ "/analysis_report.md") = false) := by
  constructor
  · intro h
    simp only [analysisLoop, h, analysisStep_ok_empty]
  · intro h hg
    refine ⟨?_, ?_⟩
    · simp only [analysisLoop, h, analysisStep_error fs d e hg]
    · unfold analysisGate at hg
      rw [Bool.and_eq_true, Bool.not_eq_true'] at hg
      exact hg.2

/-- Witness for `analyzer_failure_handling` at the concrete two-item state. -/
theorem analyzer_failure_handling_witness :
    analysisLoop twoItemRes twoItemFS ["a", "b"] = (twoItemFS, some "boom") ∧
    fsExists twoItemFS "a/analysis_report.md" = false :=
  (analyzer_failure_handling twoItemRes twoItemFS "a" ["b"] "boom").2 rfl rfl

/-! ## OpenAI analyzer error path (`src/analyzer.py` 95-137) -/

/-- Model of `OpenAIAnalyzer.analyze`: the chat-completion call either returns the
message content or raises; the `except` clause turns the exception into
the report string `"Error calling OpenAI: {e}"`, which is returned
normally (never re-raised). -/
def openAIAnalyze (apiCall : Except String String) : Except String String :=
  match apiCall with
  | .ok content => .ok content
  | .error e => .ok ("Error calling OpenAI: " ++ e)

/-- C10: when the chat-completion call raises, `OpenAIAnalyzer.analyze`
returns the non-empty string "Error calling OpenAI: " ++ e instead of
propagating; the pipeline's truthiness check accepts it and writes it to
`analysis_report.md`, marking the item analysis-complete. -/
theorem openai_error_marks_complete (e : String) (fs : FS) (dir : String)
    (h1 : fsExists fs (dir ++ "/full_extracted.md") = true)
    (h2 : fsExists fs (dir ++ "/analysis_report.md") = false) :
    openAIAnalyze (.error e) = .ok ("Error calling OpenAI: " ++ e) ∧
    ("Error calling OpenAI: " ++ e) ≠ "" ∧
    analysisStep (openAIAnalyze (.error e)) fs dir =
      (fsWrite fs (dir ++ "/analysis_report.md") ("Error calling OpenAI: " ++ e),
        true, none) ∧
    fsExists (analysisStep (openAIAnalyze (.error e)) fs dir).1
      (dir ++ "/analysis_report.md") = true := by
  have hne : ("Error calling OpenAI: " ++ e) ≠ "" := by
    intro h
    have hl := congrArg String.length h
    rw [String.length_append] at hl
    have h22 : ("Error calling OpenAI: " : String).length = 22 := rfl
    have hz : ("" : String).length = 0 := rfl
    rw [h22, hz] at hl
    omega
  have hstep : analysisStep (openAIAnalyze (.error e)) fs dir =
      (fsWrite fs (dir ++ "/analysis_report.md") ("Error calling OpenAI: " ++ e),
        true, none) := by
    unfold openAIAnalyze analysisStep
    rw [h1, h2]
    simp [hne]
  refine ⟨rfl, hne, hstep, ?_⟩
  rw [hstep]
  unfold fsExists fsLookup fsWrite
  simp

/-- Witness for `openai_error_marks_complete` on a concrete filesystem. -/
theorem openai_error_marks_complete_witness :
    analysisStep (openAIAnalyze (.error "timeout")) zeroSizeFS "p" =
      (fsWrite zeroSizeFS "p/analysis_report.md" ("Error calling OpenAI: " ++ "timeout"),
        true, none) :=
  (openai_error_marks_complete "timeout" zeroSizeFS "p" rfl rfl).2.2.1

/-! ## Persisting the report (`main.py` 140-143)

To reason about atomicity we record the sequence of primitive filesystem
operations the save performs, and what a crash in the middle of an
operation can leave behind. -/

/-- A primitive filesystem operation. -/
inductive FsOp where
  | write (path content : String)
  | rename (src dst : String)
deriving DecidableEq

/-- Apply one completed operation. -/
def applyOp (fs : FS) : FsOp → FS
  | .write p c => fsWrite fs p c
  | .rename src dst =>
    match fsLookup fs src with
    | some c => fsWrite (fsRemove fs src) dst c
    | none => fs

/-- Apply a sequence of completed operations. -/
def applyOps (fs : FS) (ops : List FsOp) : FS := ops.foldl applyOp fs

/-- The state left when a crash interrupts an operation after `cut` bytes:
a plain write leaves a prefix of the content at the target path; a rename
is atomic and leaves the filesystem unchanged. -/
def crashDuringOp (fs : FS) (op : FsOp) (cut : Nat) : FS :=
  match op with
  | .write p c => fsWrite fs p (c.take cut)
  | .rename _ _ => fs

/-- The operations `main.py` 140-143 performs to persist a report:
`open(path, "w")` on the final marker path followed by `f.write(report)` —
one direct write, no temporary path and no rename. -/
def saveReportOps (dir report : String) : List FsOp :=
  [FsOp.write (dir ++ "/analysis_report.md") report]

theorem string_take_length (s : String) (n : Nat) :
    (s.take n).length = min n s.length := by
  rw [String.take_eq]
  show (s.data.take n).length = min n s.data.length
  exact List.length_take n s.data

/-- CounterC5: the save is a single direct write to the final marker path
(no rename at all); a crash after 3 bytes of the report "REPORT" leaves
`analysis_report.md` holding "REP" — non-empty, but not the report. -/
theorem report_write_not_atomic :
    saveReportOps "p" "REPORT" = [FsOp.write "p/analysis_report.md" "REPORT"] ∧
    fsLookup (crashDuringOp [] (FsOp.write "p/analysis_report.md" "REPORT") 3)
      "p/analysis_report.md" = some "REP" ∧
    ("REP" : String) ≠ "" ∧ ("REP" : String) ≠ "REPORT" := by
  refine ⟨rfl, rfl, by decide, by decide⟩

/-- C5 (amended): the report is persisted by one direct, non-atomic write
to the final marker path — no temporary path or rename is involved — so a
crash part-way through the write can leave a non-empty marker whose
content is a proper prefix of the report, not the report itself. -/
theorem save_report_direct_write (dir report : String) (fs : FS) (cut : Nat)
    (hpos : 0 < cut) (hlt : cut < report.length) :
    saveReportOps dir report = [FsOp.write (dir ++ "/analysis_report.md") report] ∧
    applyOps fs (saveReportOps dir report) =
      fsWrite fs (dir ++ "/analysis_report.md") report ∧
    fsLookup (crashDuringOp fs (FsOp.write (dir ++ "/analysis_report.md") report) cut)
      (dir ++ "/analysis_report.md") = some (report.take cut) ∧
    (report.take cut).length ≠ 0 ∧ report.take cut ≠ report := by
  refine ⟨rfl, rfl, ?_, ?_, ?_⟩
  · unfold crashDuringOp fsLookup fsWrite
    simp
  · rw [string_take_length]
    omega
  · intro h
    have hl := congrArg String.length h
    rw [string_take_length] at hl
    omega

/-- Witness for `save_report_direct_write` at a concrete report. -/
theorem save_report_direct_write_witness :
    (0 < 3 ∧ 3 < ("REPORT" : String).length) ∧
    fsLookup (crashDuringOp [] (FsOp.write ("q" ++ "/analysis_report.md") "REPORT") 3)
      ("q" ++ "/analysis_report.md") = some ("REPORT".take 3) :=
  ⟨⟨by decide, by decide⟩,
    (save_report_direct_write "q" "REPORT" [] 3 (by decide) (by decide)).2.2.1⟩

/-! ## OCR extraction supervisor (`main.py` 88-128) -/

/-- Result of the isolated OCR subprocess invocation (`subprocess.run` at
`main.py` 101-102): a completed run with an exit code, a
`subprocess.TimeoutExpired`, or an exception while launching. -/
inductive OcrOutcome where
  | exited (code : Int)
  | timedOut
  | launchFailed

/-- The cleanup of the failure branches (`main.py` 110-126):
`if os.path.exists(paper_extracted_path): shutil.rmtree(paper_extracted_path)`. -/
def ocrCleanup (fs : FS) (dir : String) : FS :=
  if fsDirNonempty fs dir then fsRemoveTree fs dir else fs

/-- The OCR block of the loop body (`main.py` 88-128) for one item.  The
subprocess is modelled by `run`, which transforms the filesystem (the
engine's own writes) and reports an outcome.  If the extraction marker
already exists with non-zero size the subprocess is not run; otherwise a
non-zero exit, a timeout, or a launch exception triggers the cleanup; the
function always returns, so the loop proceeds to the next item. -/
def ocrStep (run : FS → FS × OcrOutcome) (fs : FS) (dir : String) : FS :=
  if fsExists fs (dir ++ "/full_extracted.md") &&
      decide (0 < fsSize fs (dir ++ "/full_extracted.md")) then fs
  else
    match run fs with
    | (fs2, .exited code) => if code ≠ 0 then ocrCleanup fs2 dir else fs2
    | (fs2, .timedOut) => ocrCleanup fs2 dir
    | (fs2, .launchFailed) => ocrCleanup fs2 dir

theorem ocrCleanup_no_file (fs : FS) (dir p : String)
    (hp : underDir dir p = true) :
    fsExists (ocrCleanup fs dir) p = false := by
  unfold ocrCleanup
  cases hne : fsDirNonempty fs dir with
  | true => simpa using fsExists_fsRemoveTree fs dir p hp
  | false => simpa using fsDirNonempty_false_no_file fs dir p hne hp

/-- C3: when the extraction subprocess for an item ends in a non-zero exit
code, a timeout, or a launch-level exception, no file below the item's
extraction output directory survives in the resulting state (and the step
returns normally, so the loop continues with the next item); moreover a
timeout yields exactly the same filesystem as a non-zero exit would with
the same engine writes. -/
theorem ocr_failure_cleanup (run : FS → FS × OcrOutcome) (fs fs2 : FS)
    (dir p : String) (out : OcrOutcome)
    (hnot : (fsExists fs (dir ++ "/full_extracted.md") &&
      decide (0 < fsSize fs (dir ++ "/full_extracted.md"))) = false)
    (hrun : run fs = (fs2, out))
    (hfail : (∃ code, out = OcrOutcome.exited code ∧ code ≠ 0) ∨
      out = OcrOutcome.timedOut ∨ out = OcrOutcome.launchFailed)
    (hp : underDir dir p = true) :
    fsExists (ocrStep run fs dir) p = false ∧
    (∀ g : FS → FS, ∀ s : FS,
      ocrStep (fun t => (g t, OcrOutcome.timedOut)) s dir =
        ocrStep (fun t => (g t, OcrOutcome.exited 1)) s dir) := by
  constructor
  · unfold ocrStep
    rw [hnot]
    simp only [Bool.false_eq_true, if_false, hrun]
    rcases hfail with ⟨code, hout, hcode⟩ | hout | hout
    · rw [hout]
      show fsExists (if code ≠ 0 then ocrCleanup fs2 dir else fs2) p = false
      rw [if_pos hcode]
      exact ocrCleanup_no_file fs2 dir p hp
    · rw [hout]
      exact ocrCleanup_no_file fs2 dir p hp
    · rw [hout]
      exact ocrCleanup_no_file fs2 dir p hp
  · intro g s
    unfold ocrStep
    cases hc : (fsExists s (dir ++ "/full_extracted.md") &&
        decide (0 < fsSize s (dir ++ "/full_extracted.md"))) with
    | true => rfl
    | false =>
      simp only [Bool.false_eq_true, if_false]
      rw [if_pos (by decide : (1 : Int) ≠ 0)]

/-- A concrete engine run that writes a page file and then times out. -/
def timeoutRun : FS → FS × OcrOutcome :=
  fun s => (("p/pages/page_0/result.mmd", "text") :: s, OcrOutcome.timedOut)

/-- Witness for `ocr_failure_cleanup`: after a timed-out run that had
written a page file under `p/`, that file is gone. -/
theorem ocr_failure_cleanup_witness :
    fsExists (ocrStep timeoutRun [] "p") "p/pages/page_0/result.mmd" = false :=
  (ocr_failure_cleanup timeoutRun [] [("p/pages/page_0/result.mmd", "text")]
    "p" "p/pages/page_0/result.mmd" OcrOutcome.timedOut rfl rfl
    (Or.inr (Or.inl rfl)) (by decide)).1


/-! ## Download coordinator: one fetch (`src/scraper.py` 53-102) -/

/-- Status of one `download_pdf` call. -/
inductive DlStatus where
  | skipped
  | success
  | error (msg : String)
deriving DecidableEq

/-- Behaviour of the network for one request (`scraper.py` 84-99): a 200
response whose body streams completely; a non-200 status; or a mid-stream
network exception (`ChunkedEncodingError`, `ProtocolError`,
`IncompleteRead`, `ConnectionError`) raised after `pb` bytes of the body
were already written to the file. -/
inductive NetResult where
  | ok (body : String)
  | httpStatus (code : Nat)
  | midStream (pb : String) (msg : String)

/-- Model of `download_pdf` (`scraper.py` 53-102) for one paper, given the
network's behaviour.  An existing file strictly larger than 1024 bytes is
skipped; an existing file of at most 1024 bytes is deleted (`os.remove`)
and the fetch proceeds; on a 200 the streamed body is written; on any
other status an error is returned with no write; on a mid-stream
exception the partially written file is deleted and an error returned. -/
def download_pdf (fs : FS) (filepath : String) (net : NetResult) : FS × DlStatus :=
  if fsExists fs filepath && decide (1024 < fsSize fs filepath) then
    (fs, DlStatus.skipped)
  else
    let fs1 := if fsExists fs filepath then fsRemove fs filepath else fs
    match net with
    | .ok body => (fsWrite fs1 filepath body, DlStatus.success)
    | .httpStatus code => (fs1, DlStatus.error ("HTTP " ++ toString code))
    | .midStream pb msg =>
      let fs2 := fsWrite fs1 filepath pb
      let fs3 := if fsExists fs2 filepath then fsRemove fs2 filepath else fs2
      (fs3, DlStatus.error ("Network Error: " ++ msg))

/-- C4: `download_pdf` returns `skipped` exactly when the file already
exists with size strictly above the 1024-byte threshold; an existing file
at or below the threshold is deleted and re-fetched (on a clean 200 the
body replaces it); and after a mid-stream network exception the partially
written file has been deleted before the error outcome is returned. -/
theorem download_pdf_corruption_policy (fs : FS) (filepath body msg pb : String)
    (net : NetResult) :
    ((download_pdf fs filepath net).2 = DlStatus.skipped ↔
      (fsExists fs filepath = true ∧ 1024 < fsSize fs filepath)) ∧
    (fsExists fs filepath = true → fsSize fs filepath ≤ 1024 →
      download_pdf fs filepath (NetResult.ok body) =
        (fsWrite (fsRemove fs filepath) filepath body, DlStatus.success)) ∧
    (¬ (fsExists fs filepath = true ∧ 1024 < fsSize fs filepath) →
      fsExists (download_pdf fs filepath (NetResult.midStream pb msg)).1 filepath = false ∧
      (download_pdf fs filepath (NetResult.midStream pb msg)).2 =
        DlStatus.error ("Network Error: " ++ msg)) := by
  have hcond : (fsExists fs filepath && decide (1024 < fsSize fs filepath)) = true ↔
      (fsExists fs filepath = true ∧ 1024 < fsSize fs filepath) := by
    rw [Bool.and_eq_true, decide_eq_true_iff]
  refine ⟨?_, ?_, ?_⟩
  · unfold download_pdf
    cases hc : (fsExists fs filepath && decide (1024 < fsSize fs filepath)) with
    | true =>
      exact ⟨fun _ => hcond.mp hc, fun _ => if_pos rfl ▸ rfl⟩
    | false =>
      constructor
      · intro h
        rw [if_neg (by simp)] at h
        cases net <;> exact absurd h (by simp)
      · intro h
        rw [← hcond, hc] at h
        exact absurd h (by simp)
  · intro hex hsize
    have hc : (fsExists fs filepath && decide (1024 < fsSize fs filepath)) = false := by
      rw [Bool.and_eq_false_iff]
      right
      rw [decide_eq_false_iff_not]
      omega
    unfold download_pdf
    rw [hc, if_neg (by simp), hex]
    rw [if_pos rfl]
  · intro hns
    have hc : (fsExists fs filepath && decide (1024 < fsSize fs filepath)) = false := by
      rw [← Bool.not_eq_true, hcond]
      exact hns
    unfold download_pdf
    rw [hc, if_neg (by simp)]
    constructor
    · show fsExists
        (if fsExists (fsWrite _ filepath pb) filepath = true
          then fsRemove (fsWrite _ filepath pb) filepath
          else fsWrite _ filepath pb) filepath = false
      rw [fsExists_fsWrite_self, if_pos rfl]
      exact fsExists_fsRemove_self _ filepath
    · rfl

/-- Witness for `download_pdf_corruption_policy`: a 900-byte existing file
is deleted and re-fetched, and a mid-stream failure leaves no file. -/
theorem download_pdf_corruption_policy_witness :
    fsExists (download_pdf [("d/x.pdf", "small")] "d/x.pdf"
      (NetResult.midStream "par" "reset")).1 "d/x.pdf" = false ∧
    (download_pdf [("d/x.pdf", "small")] "d/x.pdf"
      (NetResult.midStream "par" "reset")).2 =
        DlStatus.error ("Network Error: " ++ "reset") :=
  (download_pdf_corruption_policy [("d/x.pdf", "small")] "d/x.pdf" "B" "reset" "par"
    (NetResult.midStream "par" "reset")).2.2 (by decide)

/-! ## Perpetual-restart wrapper (`run_ocr_robust.py`) -/

/-- The restart loop of `run_ocr_robust.py` (`run_ocr`, lines 6-19), run
against a finite trace of engine exit codes, one code per launch.
Returns `some (launches, totalSleep)` when a launch exits 0 (the loop
breaks); `none` when the trace is exhausted without a zero exit (the loop
is still running — it never terminates on non-zero exits). -/
def run_ocr : List Int → Option (Nat × Nat)
  | [] => none
  | c :: rest =>
    if c = 0 then some (1, 0)
    else
      match run_ocr rest with
      | some (n, s) => some (n + 1, s + 5)
      | none => none

/-- Observable outcome of invoking the wrapper. -/
inductive WrapperOutcome where
  | fastFail (exitCode : Nat)
  | finished (launches : Nat) (totalSleep : Nat)
  | stillRunning
deriving DecidableEq

/-- Entry of `run_ocr_robust.py` (lines 21-27): if `src/ocr_engine.py`
is not reachable from the working directory, exit 1 before any launch;
otherwise run the restart loop over the engine's successive exit codes. -/
def run_ocr_robust (entryReachable : Bool) (codes : List Int) : WrapperOutcome :=
  if !entryReachable then WrapperOutcome.fastFail 1
  else
    match run_ocr codes with
    | some (n, s) => WrapperOutcome.finished n s
    | none => WrapperOutcome.stillRunning

theorem run_ocr_some_spec (codes : List Int) (n s : Nat)
    (h : run_ocr codes = some (n, s)) :
    1 ≤ n ∧ codes[n - 1]? = some 0 ∧
    (∀ i, i < n - 1 → ∀ c, codes[i]? = some c → c ≠ 0) ∧
    s = 5 * (n - 1) := by
  induction codes generalizing n s with
  | nil => exact absurd h (by simp [run_ocr])
  | cons c rest ih =>
    rw [run_ocr] at h
    by_cases hc : c = 0
    · rw [if_pos hc] at h
      injection h with h2
      injection h2 with hn hs
      subst hc
      refine ⟨by omega, ?_, ?_, by omega⟩
      · rw [← hn]
        simp
      · intro i hi
        omega
    · rw [if_neg hc] at h
      cases hrest : run_ocr rest with
      | none => rw [hrest] at h; exact absurd h (by simp)
      | some r =>
        obtain ⟨m, t⟩ := r
        rw [hrest] at h
        injection h with h2
        injection h2 with hn hs
        obtain ⟨hm, hget, hpre, ht⟩ := ih m t hrest
        refine ⟨by omega, ?_, ?_, by omega⟩
        · rw [← hn]
          have he : m + 1 - 1 = (m - 1) + 1 := by omega
          rw [he, List.getElem?_cons_succ]
          exact hget
        · intro i hi d hd
          rw [← hn] at hi
          cases i with
          | zero =>
            rw [List.getElem?_cons_zero] at hd
            injection hd with hd2
            exact hd2 ▸ hc
          | succ j =>
            rw [List.getElem?_cons_succ] at hd
            exact hpre j (by omega) d hd

theorem run_ocr_none_of_all_nonzero (codes : List Int)
    (h : ∀ c ∈ codes, c ≠ 0) : run_ocr codes = none := by
  induction codes with
  | nil => rfl
  | cons c rest ih =>
    rw [run_ocr, if_neg (h c (List.mem_cons_self c rest)),
      ih (fun d hd => h d (List.mem_cons_of_mem c hd))]

/-- C7: the wrapper fails fast with exit code 1 when the extraction entry
point is unreachable; otherwise every non-zero engine exit causes a fixed
5-second delay and a relaunch, the loop terminates exactly at the first
zero exit (launch `n` is the zero exit, all earlier exits are non-zero,
and the total delay is five seconds per failed launch), and a trace of
only non-zero exits leaves the loop still running. -/
theorem ocr_wrapper_restart (codes : List Int) (n s : Nat) :
    run_ocr_robust false codes = WrapperOutcome.fastFail 1 ∧
    (run_ocr codes = some (n, s) →
      run_ocr_robust true codes = WrapperOutcome.finished n s ∧
      1 ≤ n ∧ codes[n - 1]? = some 0 ∧
      (∀ i, i < n - 1 → ∀ c, codes[i]? = some c → c ≠ 0) ∧
      s = 5 * (n - 1)) ∧
    ((∀ c ∈ codes, c ≠ 0) → run_ocr_robust true codes = WrapperOutcome.stillRunning) := by
  refine ⟨rfl, ?_, ?_⟩
  · intro h
    have hspec := run_ocr_some_spec codes n s h
    refine ⟨?_, hspec⟩
    unfold run_ocr_robust
    rw [h]
    rfl
  · intro h
    unfold run_ocr_robust
    rw [run_ocr_none_of_all_nonzero codes h]
    rfl

/-- Witness for `ocr_wrapper_restart`: two crashes then a clean exit give
three launches and ten seconds of delay; unreachable entry fails fast. -/
theorem ocr_wrapper_restart_witness :
    run_ocr_robust false [2, 3, 0] = WrapperOutcome.fastFail 1 ∧
    run_ocr_robust true [2, 3, 0] = WrapperOutcome.finished 3 10 :=
  ⟨(ocr_wrapper_restart [2, 3, 0] 3 10).1,
    ((ocr_wrapper_restart [2, 3, 0] 3 10).2.1 rfl).1⟩

/-! ## Transport-level retry configuration (`src/scraper.py` 36-48) -/

/-- The urllib3 `Retry` configuration built by `get_session`. -/
structure RetryConfig where
  total : Nat
  read : Nat
  connect : Nat
  backoffFactor : Nat
  statusForcelist : List Nat
deriving DecidableEq

/-- Configuration built by `get_session` (`scraper.py` 36-48): `Retry(total=5, read=5,
connect=5, backoff_factor=1, status_forcelist=[429, 500, 502, 503, 504])`,
mounted for both http and https. -/
def get_session : RetryConfig :=
  ⟨5, 5, 5, 1, [429, 500, 502, 503, 504]⟩

/-- urllib3 `Retry` semantics of `status_forcelist`: a response status
triggers an automatic retry exactly when it is in the forcelist. -/
def retriesOnStatus (c : RetryConfig) (s : Nat) : Bool :=
  c.statusForcelist.contains s

/-- urllib3 `Retry` backoff: before the `n`-th retry (1-based) sleep
`backoff_factor * 2^(n-1)` seconds. -/
def backoffDelay (c : RetryConfig) (n : Nat) : Nat :=
  c.backoffFactor * 2 ^ (n - 1)

/-- C8: the transport retries are bounded by 5, connection-level errors
are retried (`connect`/`read` budgets are positive), the retryable status
set is exactly {429, 500, 502, 503, 504} — no other status is retried —
and the backoff doubles from one retry to the next (exponential). -/
theorem transport_retry_spec (s n : Nat) (hn : 1 ≤ n) :
    get_session.total = 5 ∧
    0 < get_session.connect ∧ 0 < get_session.read ∧
    (retriesOnStatus get_session s = true ↔
      s = 429 ∨ s = 500 ∨ s = 502 ∨ s = 503 ∨ s = 504) ∧
    backoffDelay get_session (n + 1) = 2 * backoffDelay get_session n := by
  refine ⟨rfl, by decide, by decide, ?_, ?_⟩
  · unfold retriesOnStatus get_session
    simp [List.contains]
  · show 1 * 2 ^ (n + 1 - 1) = 2 * (1 * 2 ^ (n - 1))
    rw [one_mul, one_mul, Nat.add_sub_cancel]
    calc 2 ^ n = 2 ^ (n - 1 + 1) := by
          congr 1
          omega
      _ = 2 ^ (n - 1) * 2 := pow_succ 2 (n - 1)
      _ = 2 * 2 ^ (n - 1) := Nat.mul_comm _ 2

/-- Witness for `transport_retry_spec`: status 404 is not retried, 503
is, and the delay before retry 3 is twice the delay before retry 2. -/
theorem transport_retry_spec_witness :
    retriesOnStatus get_session 503 = true ∧
    retriesOnStatus get_session 404 = false ∧
    backoffDelay get_session 3 = 2 * backoffDelay get_session 2 :=
  ⟨(transport_retry_spec 503 2 (by decide)).2.2.2.1.mpr (by decide),
    by
      have h := (transport_retry_spec 404 2 (by decide)).2.2.2.1
      cases hb : retriesOnStatus get_session 404 with
      | false => rfl
      | true => exact absurd (h.mp hb) (by decide),
    (transport_retry_spec 404 2 (by decide)).2.2.2.2⟩

/-! ## Work-item discovery (`main.py` 48-54) -/

/-- Whether `f` has the `.pdf` suffix (`f.endswith('.pdf')`). -/
def isPdfName (f : String) : Bool :=
  List.isSuffixOf ".pdf".data f.data

/-- Work-item discovery as `main.py` 48-50 performs it: filter the
directory listing (`os.listdir`) to `.pdf` names, preserving the
listing's order, then — `if args.limit:` — truncate to the limit when it
is given and non-zero (0 and None are falsy and apply no truncation).
No sorting of any kind is applied. -/
def discoverPdfs (listing : List String) (limit : Option Nat) : List String :=
  let pdfs := listing.filter isPdfName
  match limit with
  | some n => if n ≠ 0 then pdfs.take n else pdfs
  | none => pdfs

/-- CounterC9: two enumerations of the same directory contents (the same
two files, permuted — `os.listdir` order is not specified) make discovery
with limit 1 select different items, so discovery is not deterministic
over the external state, only over the enumeration order. -/
theorem discovery_order_dependent :
    List.Perm ["a.pdf", "b.pdf"] ["b.pdf", "a.pdf"] ∧
    discoverPdfs ["a.pdf", "b.pdf"] (some 1) = ["a.pdf"] ∧
    discoverPdfs ["b.pdf", "a.pdf"] (some 1) = ["b.pdf"] ∧
    discoverPdfs ["a.pdf", "b.pdf"] (some 1) ≠ discoverPdfs ["b.pdf", "a.pdf"] (some 1) :=
  ⟨List.Perm.swap "b.pdf" "a.pdf" [], rfl, rfl, by decide⟩

/-- C9 (amended): discovery is a pure function of the enumeration the OS
(or catalog) returns: it keeps the `.pdf` entries in enumeration order
(a sublist of the listing), a non-zero limit `n` truncates to the first
`n` of that filtered sequence, and limits are take-consistent (`m ≤ n`
selects a prefix of what `n` selects).  The code applies no ordering of
its own, so determinism holds only relative to the enumeration order,
not to the directory's contents as a set. -/
theorem discovery_listing_deterministic (listing : List String) (m n : Nat)
    (hm : m ≠ 0) (hn : n ≠ 0) (hmn : m ≤ n) :
    discoverPdfs listing none = listing.filter isPdfName ∧
    discoverPdfs listing (some n) = (discoverPdfs listing none).take n ∧
    discoverPdfs listing (some m) = (discoverPdfs listing (some n)).take m ∧
    (discoverPdfs listing none).Sublist listing := by
  refine ⟨rfl, ?_, ?_, List.filter_sublist listing⟩
  · show (if n ≠ 0 then (listing.filter isPdfName).take n
      else listing.filter isPdfName) = _
    rw [if_pos hn]
    rfl
  · show (if m ≠ 0 then (listing.filter isPdfName).take m
        else listing.filter isPdfName) =
      (if n ≠ 0 then (listing.filter isPdfName).take n
        else listing.filter isPdfName).take m
    rw [if_pos hn, if_pos hm, List.take_take, Nat.min_eq_left hmn]

/-- Witness for `discovery_listing_deterministic` on a concrete listing. -/
theorem discovery_listing_deterministic_witness :
    discoverPdfs ["a.pdf", "x.txt", "b.pdf"] (some 1) =
      (discoverPdfs ["a.pdf", "x.txt", "b.pdf"] (some 2)).take 1 :=
  (discovery_listing_deterministic ["a.pdf", "x.txt", "b.pdf"] 1 2
    (by decide) (by decide) (by decide)).2.2.1

/-! ## Acquisition batch-retry loop (`src/scraper.py` 104-161) -/

/-- A work item as the scraper consumes it: OpenReview note id + title. -/
structure Paper where
  id : String
  title : String
deriving DecidableEq

/-- Model of `process_downloads` (`scraper.py` 104-123): fetch every paper of the
batch across the worker pool and return the papers whose download ended
in an error outcome.  The round's network behaviour is abstracted by the
oracle `err`: `err p = true` means this round's `download_pdf` for `p`
returned an error status. -/
def process_downloads (err : Paper → Bool) (papers : List Paper) : List Paper :=
  papers.filter err

/-- The retry loop of `scraper.py` `main` (lines 137-153): while the
current batch is non-empty and `retry_count < 3`, run `process_downloads`
on it; if no paper failed, break (leaving `current_batch` as it was);
otherwise the failures become the next round's batch and `retry_count`
increments.  `err r p` is the download-error oracle for round `r`.
Returns the final `current_batch` and the number of rounds run. -/
def retryLoop (err : Nat → Paper → Bool) (batch : List Paper) (rc : Nat) :
    List Paper × Nat :=
  if h : batch ≠ [] ∧ rc < 3 then
    let failed := process_downloads (err rc) batch
    if failed = [] then (batch, 1)
    else
      let r := retryLoop err failed (rc + 1)
      (r.1, r.2 + 1)
  else (batch, 0)
termination_by 3 - rc
decreasing_by omega

/-- One line of `failed_downloads.txt` (`scraper.py` 160): `{id} - {title}`. -/
def ledgerLine (p : Paper) : String := p.id ++ " - " ++ p.title

/-- Model of `scraper.py` 155-161: after the loop, if the final batch is non-empty
its papers are written to `failed_downloads.txt`, one line each, in batch
order. -/
def failedLedger (err : Nat → Paper → Bool) (papers : List Paper) : List String :=
  let b := (retryLoop err papers 0).1
  if b = [] then [] else b.map ledgerLine

theorem retryLoop_props (err : Nat → Paper → Bool) :
    ∀ k batch rc, 3 - rc ≤ k →
      ((retryLoop err batch rc).1).Sublist batch ∧
      (retryLoop err batch rc).2 ≤ 3 - rc := by
  intro k
  induction k with
  | zero =>
    intro batch rc hk
    rw [retryLoop, dif_neg (by omega : ¬ (batch ≠ [] ∧ rc < 3))]
    exact ⟨List.Sublist.refl batch, by omega⟩
  | succ k ih =>
    intro batch rc hk
    rw [retryLoop]
    by_cases h : batch ≠ [] ∧ rc < 3
    · rw [dif_pos h]
      by_cases hf : process_downloads (err rc) batch = []
      · rw [if_pos hf]
        exact ⟨List.Sublist.refl batch, by omega⟩
      · rw [if_neg hf]
        have hrec := ih (process_downloads (err rc) batch) (rc + 1) (by omega)
        refine ⟨hrec.1.trans (List.filter_sublist batch), ?_⟩
        show (retryLoop err (process_downloads (err rc) batch) (rc + 1)).2 + 1 ≤ 3 - rc
        have h2 := hrec.2
        omega
    · rw [dif_neg h]
      exact ⟨List.Sublist.refl batch, by omega⟩

theorem retryLoop_mem (err : Nat → Paper → Bool) (p : Paper)
    (hfail : ∀ r, r < 3 → err r p = true) :
    ∀ k batch rc, 3 - rc ≤ k → p ∈ batch → p ∈ (retryLoop err batch rc).1 := by
  intro k
  induction k with
  | zero =>
    intro batch rc hk hp
    rw [retryLoop, dif_neg (by omega : ¬ (batch ≠ [] ∧ rc < 3))]
    exact hp
  | succ k ih =>
    intro batch rc hk hp
    rw [retryLoop]
    by_cases h : batch ≠ [] ∧ rc < 3
    · rw [dif_pos h]
      have hmem : p ∈ process_downloads (err rc) batch := by
        unfold process_downloads
        rw [List.mem_filter]
        exact ⟨hp, hfail rc h.2⟩
      by_cases hf : process_downloads (err rc) batch = []
      · rw [hf] at hmem
        exact absurd hmem (List.not_mem_nil p)
      · rw [if_neg hf]
        exact ih (process_downloads (err rc) batch) (rc + 1) (by omega) hmem
    · rw [dif_neg h]
      exact hp

theorem count_map_ledgerLine (p : Paper) :
    ∀ l : List Paper, (∀ q ∈ l, ledgerLine q = ledgerLine p → q = p) →
      (l.map ledgerLine).count (ledgerLine p) = l.count p := by
  intro l
  induction l with
  | nil => intro _; rfl
  | cons a t ih =>
    intro hinj
    have ht := ih (fun q hq => hinj q (List.mem_cons_of_mem a hq))
    by_cases ha : a = p
    · subst ha
      simp [List.count_cons, ht]
    · have hline : ledgerLine a ≠ ledgerLine p := by
        intro h
        exact ha (hinj a (List.mem_cons_self a t) h)
      simp [List.count_cons, ht, ha, hline]

/-- C6: in the acquisition retry loop, each round after the first runs
exactly on the failures of the immediately preceding round; the loop
terminates after at most 3 rounds, and a round with no failures is the
final one; and a paper failing every round appears exactly once in
`failed_downloads.txt`, as the line `{id} - {title}`. -/
theorem acquisition_retry_spec (err : Nat → Paper → Bool) (papers : List Paper)
    (p : Paper) (hnd : papers.Nodup) (hp : p ∈ papers)
    (hfail : ∀ r, r < 3 → err r p = true)
    (hinj : ∀ q ∈ papers, ledgerLine q = ledgerLine p → q = p) :
    (∀ batch rc, batch ≠ [] → rc < 3 → process_downloads (err rc) batch ≠ [] →
      (retryLoop err batch rc).1 =
        (retryLoop err (process_downloads (err rc) batch) (rc + 1)).1) ∧
    (retryLoop err papers 0).2 ≤ 3 ∧
    (∀ batch rc, batch ≠ [] → rc < 3 → process_downloads (err rc) batch = [] →
      retryLoop err batch rc = (batch, 1)) ∧
    (failedLedger err papers).count (ledgerLine p) = 1 := by
  have hfinal := retryLoop_props err (3 - 0) papers 0 (le_refl _)
  have hmem := retryLoop_mem err p hfail (3 - 0) papers 0 (le_refl _) hp
  refine ⟨?_, by simpa using hfinal.2, ?_, ?_⟩
  · intro batch rc hb hrc hf
    conv_lhs => rw [retryLoop]
    rw [dif_pos ⟨hb, hrc⟩, if_neg hf]
  · intro batch rc hb hrc hf
    rw [retryLoop, dif_pos ⟨hb, hrc⟩, if_pos hf]
  · have hsub := hfinal.1
    have hne : (retryLoop err papers 0).1 ≠ [] := List.ne_nil_of_mem hmem
    unfold failedLedger
    rw [if_neg hne]
    rw [count_map_ledgerLine p _ (fun q hq hline => hinj q (hsub.subset hq) hline)]
    exact List.count_eq_one_of_mem (hsub.nodup hnd) hmem

/-- The two-paper input used to witness the retry loop: the first paper's
download always fails, the second always succeeds. -/
def twoPapers : List Paper := [⟨"id1", "T1"⟩, ⟨"id2", "T2"⟩]

/-- The failing paper in `twoPapers`. -/
def paperOne : Paper := ⟨"id1", "T1"⟩

/-- Download-error oracle: only `id1` errors, in every round. -/
def failOnId1 : Nat → Paper → Bool := fun _ q => q.id == "id1"

/-- Witness for `acquisition_retry_spec`: after all rounds, the failing
paper's ledger line appears exactly once in `failed_downloads.txt`. -/
theorem acquisition_retry_spec_witness :
    (failedLedger failOnId1 twoPapers).count (ledgerLine paperOne) = 1 :=
  (acquisition_retry_spec failOnId1 twoPapers paperOne (by decide) (by decide)
    (fun r hr => rfl) (by decide)).2.2.2

end ReadPapers
